import Mathlib

/-!
Verification of `starcraft_bronze.py` (StarcraftZero).

The Python module is embedded shallowly: Python integers become `Int`,
Python lists become `List`, `itertools.product` becomes `List.product`,
Python `range(n)` becomes `intRange n`, and the one fallible function
(`next_state`, which performs a division that raises `ZeroDivisionError`
when the income rate is zero) returns an `Option`.  `math.ceil(a / b)`
(true division followed by ceiling) is modelled by the exact ceiling of
the rational quotient, realised on integers as `ceilDiv`.
-/

namespace StarcraftZero

/-- Global cap `MAX_DRONES = 50`. -/
def MAX_DRONES : Int := 50

/-- Global cap `MAX_OVERLORDS = 25`. -/
def MAX_OVERLORDS : Int := 25

/-- Global cap `MAX_HATCHERIES = 5`. -/
def MAX_HATCHERIES : Int := 5

/-- The five attributes of `class State`. -/
structure State where
  hatcheries : Int
  drones : Int
  zerglings : Int
  overlords : Int
  has_spawning_pool : Bool
deriving DecidableEq, Repr

namespace State

/-- `State.units`: `self.drones + self.zerglings`. -/
def units (s : State) : Int := s.drones + s.zerglings

/-- `State.food_cap`: `8 * self.overlords`. -/
def food_cap (s : State) : Int := 8 * s.overlords

/-- `State.minerals_per_second`: `8 * self.drones`. -/
def minerals_per_second (s : State) : Int := 8 * s.drones

/-- `State.max_units_producible`: `min(self.hatcheries, self.food_cap - self.units)`. -/
def max_units_producible (s : State) : Int :=
  min s.hatcheries (s.food_cap - s.units)

/-- `State.max_buildings_producible`: `self.drones - 1`. -/
def max_buildings_producible (s : State) : Int := s.drones - 1

/-- `State.max_drones_producible`: `min(self.max_units_producible, MAX_DRONES - self.drones)`. -/
def max_drones_producible (s : State) : Int :=
  min s.max_units_producible (MAX_DRONES - s.drones)

/-- `State.max_overlords_producible`:
`min(1 if self.max_units_producible == 0 else 0, MAX_OVERLORDS - self.overlords)`. -/
def max_overlords_producible (s : State) : Int :=
  min (if s.max_units_producible = 0 then 1 else 0) (MAX_OVERLORDS - s.overlords)

/-- `State.max_zerglings_producible`:
`self.max_units_producible if self.has_spawning_pool else 0`. -/
def max_zerglings_producible (s : State) : Int :=
  if s.has_spawning_pool then s.max_units_producible else 0

/-- `State.max_hatcheries_producible`:
`min(self.max_buildings_producible, MAX_HATCHERIES - self.hatcheries)`. -/
def max_hatcheries_producible (s : State) : Int :=
  min s.max_buildings_producible (MAX_HATCHERIES - s.hatcheries)

/-- `State.is_end_state`: `self.zerglings >= 150`. -/
def is_end_state (s : State) : Prop := s.zerglings ≥ 150

/-- `State.evaluate`:
`-(self.drones + self.hatcheries + self.overlords + self.zerglings + self.has_spawning_pool)`
(the Boolean participates arithmetically, as in Python). -/
def evaluate (s : State) : Int :=
  -(s.drones + s.hatcheries + s.overlords + s.zerglings +
    (if s.has_spawning_pool then 1 else 0))

/-- `State.__lt__`: `self.evaluate() - other.evaluate()`.  The Python method
returns this *integer*, not a Boolean; Python treats the result of `a < b`
as true exactly when it is nonzero. -/
def lt (s other : State) : Int := s.evaluate - other.evaluate

/-- `State.__eq__`: all five attributes match (the `isinstance` guard always
holds in this typed embedding). -/
def eq (s other : State) : Bool :=
  s.hatcheries == other.hatcheries && s.drones == other.drones &&
  s.overlords == other.overlords && s.zerglings == other.zerglings &&
  s.has_spawning_pool == other.has_spawning_pool

/-- `State.__hash__`.  By Python operator precedence `+` binds tighter than
`<<`, so `self.drones << 24 + self.zerglings << 16 + self.overlords << 12 +
self.hatcheries << 8 + self.has_spawning_pool` is
`self.drones` shifted left by `24 + zerglings`, then by `16 + overlords`,
then by `12 + hatcheries`, then by `8 + pool`.  A negative shift amount
raises `ValueError` in Python, hence the `Option`. -/
def hash_value (s : State) : Option Int :=
  let e1 := 24 + s.zerglings
  let e2 := 16 + s.overlords
  let e3 := 12 + s.hatcheries
  let e4 := 8 + (if s.has_spawning_pool then (1 : Int) else 0)
  if 0 ≤ e1 ∧ 0 ≤ e2 ∧ 0 ≤ e3 ∧ 0 ≤ e4 then
    some (s.drones * 2 ^ (e1 + e2 + e3 + e4).toNat)
  else
    none

end State

/-- The starting state built by `State.__init__` / `main`. -/
def startState : State :=
  { hatcheries := 1, drones := 5, zerglings := 0, overlords := 1,
    has_spawning_pool := false }

/-- `class HatcheryProduction`: drones, overlords, zerglings requested. -/
structure HatcheryProduction where
  drones : Int
  overlords : Int
  zerglings : Int
deriving DecidableEq, Repr

namespace HatcheryProduction

/-- `HatcheryProduction.minerals_needed`:
`50 * drones + 100 * overlords + 50 * zerglings` (`MineralCost.DRONE = 50`,
`MineralCost.OVERLORD = 100`, `MineralCost.ZERG = 50`). -/
def minerals_needed (p : HatcheryProduction) : Int :=
  50 * p.drones + 100 * p.overlords + 50 * p.zerglings

/-- `HatcheryProduction.__len__`: `drones + overlords + zerglings`. -/
def len (p : HatcheryProduction) : Int := p.drones + p.overlords + p.zerglings

end HatcheryProduction

/-- `class DroneProduction`: hatcheries requested plus the spawning-pool flag. -/
structure DroneProduction where
  hatcheries : Int
  spawning_pool : Bool
deriving DecidableEq, Repr

namespace DroneProduction

/-- `DroneProduction.minerals_needed`: `450 * hatcheries`, plus
`MineralCost.SPAWNING_POOL = 200` only when the state lacks the pool and the
production requests it. -/
def minerals_needed (p : DroneProduction) (s : State) : Int :=
  450 * p.hatcheries +
    (if ¬s.has_spawning_pool ∧ p.spawning_pool then 200 else 0)

/-- `DroneProduction.__len__`: `hatcheries + spawning_pool`
(the Boolean counts as `0`/`1`, as in Python). -/
def len (p : DroneProduction) : Int :=
  p.hatcheries + (if p.spawning_pool then 1 else 0)

end DroneProduction

/-- Python `range(n)` as a list of integers `0, 1, …, n-1`
(empty when `n ≤ 0`). -/
def intRange (n : Int) : List Int :=
  List.map (fun i : Nat => (i : Int)) (List.range n.toNat)

/-- `hatchery_productions(state)`: iterate
`product(range(max_drones+1), range(max_overlords+1), range(max_zerglings+1))`
and keep the triples with `drones + zerglings <= state.max_units_producible`. -/
def hatchery_productions (s : State) : List HatcheryProduction :=
  (((intRange (s.max_drones_producible + 1)) ×ˢ
     ((intRange (s.max_overlords_producible + 1)) ×ˢ
       (intRange (s.max_zerglings_producible + 1)))).filter
    (fun t => decide (t.1 + t.2.2 ≤ s.max_units_producible))).map
    (fun t => ⟨t.1, t.2.1, t.2.2⟩)

/-- `drone_productions(state)`: iterate
`product(range(max_hatcheries+1), [False] if has_pool else [True, False])`
and keep the pairs with `hatcheries + spawning_pool <= max_buildings_producible`
(the Boolean counts as `0`/`1`). -/
def drone_productions (s : State) : List DroneProduction :=
  ((intRange (s.max_hatcheries_producible + 1) ×ˢ
     (if s.has_spawning_pool then [false] else [true, false])).filter
    (fun t => decide (t.1 + (if t.2 then 1 else 0) ≤ s.max_buildings_producible))).map
    (fun t => ⟨t.1, t.2⟩)

/-- `productions(drone_prods, hatchery_prods)`: the cross product, keeping a
pair when either component is non-trivial
(`drone_prod.hatcheries + drone_prod.spawning_pool > 0 or
hatchery_prod.drones + hatchery_prod.overlords + hatchery_prod.zerglings > 0`). -/
def productions (dps : List DroneProduction) (hps : List HatcheryProduction) :
    List (DroneProduction × HatcheryProduction) :=
  (dps ×ˢ hps).filter
    (fun t => decide (0 < t.1.hatcheries + (if t.1.spawning_pool then 1 else 0) ∨
      0 < t.2.drones + t.2.overlords + t.2.zerglings))

/-- Exact ceiling of the rational quotient `a / b`, modelling
`math.ceil(a / b)` on Python integers (true division followed by `ceil`). -/
def ceilDiv (a b : Int) : Int :=
  if 0 < b then -((-a).ediv b) else -(a.ediv (-b))

/-- The net effect of the mutations `next_state` performs on the copy of the
input state (lines `new_state.drones += …` through
`new_state.has_spawning_pool = …`). -/
def applyChoice (s : State) (hp : HatcheryProduction) (dp : DroneProduction) : State :=
  { hatcheries := s.hatcheries + dp.hatcheries
    drones := s.drones + hp.drones - dp.hatcheries -
      (if ¬s.has_spawning_pool ∧ dp.spawning_pool then 1 else 0)
    zerglings := s.zerglings + hp.zerglings
    overlords := s.overlords + hp.overlords
    has_spawning_pool := s.has_spawning_pool || dp.spawning_pool }

/-- `next_state(state, hatchery_prod, drone_prod, carry)`.  Returns
`(wait_time, new_carry, new_state)`; `none` models the `ZeroDivisionError`
raised when `state.minerals_per_second` is zero. -/
def next_state (s : State) (hp : HatcheryProduction) (dp : DroneProduction)
    (carry : Int) : Option (Int × Int × State) :=
  let minerals_needed := hp.minerals_needed + dp.minerals_needed s
  let new_state := applyChoice s hp dp
  if s.minerals_per_second = 0 then none
  else
    let true_mineral_needed := minerals_needed - carry
    let wait0 := ceilDiv true_mineral_needed s.minerals_per_second
    let total_minerals := s.minerals_per_second * wait0
    let wait_time := wait0 + (if 0 < hp.len then 1 else 0)
    let new_carry := total_minerals - true_mineral_needed +
      (s.minerals_per_second - dp.len * 8)
    some (wait_time, new_carry, new_state)

/-! ### Statement-level execution of `next_state`

`next_state` works imperatively on two Python objects: the argument `state`
and its shallow copy `new_state` (line `new_state = copy.copy(state)`).  The
pair `(state, new_state)` is made explicit as a store, and every assignment
of the function body becomes one store update, so that which object each
statement writes to — always the copy — is part of the model. -/

/-- `new_state.drones += hatchery_prod.drones`. -/
def stmtAddDrones (hp : HatcheryProduction) (σ : State × State) : State × State :=
  (σ.1, { σ.2 with drones := σ.2.drones + hp.drones })

/-- `new_state.overlords += hatchery_prod.overlords`. -/
def stmtAddOverlords (hp : HatcheryProduction) (σ : State × State) : State × State :=
  (σ.1, { σ.2 with overlords := σ.2.overlords + hp.overlords })

/-- `new_state.zerglings += hatchery_prod.zerglings`. -/
def stmtAddZerglings (hp : HatcheryProduction) (σ : State × State) : State × State :=
  (σ.1, { σ.2 with zerglings := σ.2.zerglings + hp.zerglings })

/-- `new_state.hatcheries += drone_prod.hatcheries`. -/
def stmtAddHatcheries (dp : DroneProduction) (σ : State × State) : State × State :=
  (σ.1, { σ.2 with hatcheries := σ.2.hatcheries + dp.hatcheries })

/-- `new_state.drones -= drone_prod.hatcheries`. -/
def stmtSubDronesForHatcheries (dp : DroneProduction) (σ : State × State) : State × State :=
  (σ.1, { σ.2 with drones := σ.2.drones - dp.hatcheries })

/-- `new_state.drones -= 1 if not state.has_spawning_pool and drone_prod.spawning_pool else 0`
(reads the *original* object). -/
def stmtSubDroneForPool (dp : DroneProduction) (σ : State × State) : State × State :=
  (σ.1, { σ.2 with drones := σ.2.drones -
    (if ¬σ.1.has_spawning_pool ∧ dp.spawning_pool then 1 else 0) })

/-- `new_state.has_spawning_pool = state.has_spawning_pool or drone_prod.spawning_pool`
(reads the *original* object). -/
def stmtSetPool (dp : DroneProduction) (σ : State × State) : State × State :=
  (σ.1, { σ.2 with has_spawning_pool := σ.1.has_spawning_pool || dp.spawning_pool })

/-- `next_state` executed statement by statement on the explicit store.
Returns the function result paired with the final value of the `state`
object, so that absence of mutation is an observable fact of the model. -/
def next_state_exec (s : State) (hp : HatcheryProduction) (dp : DroneProduction)
    (carry : Int) : Option ((Int × Int × State) × State) :=
  let σ0 : State × State := (s, s)
  let minerals_needed := hp.minerals_needed + dp.minerals_needed σ0.1
  let σ := stmtSetPool dp (stmtSubDroneForPool dp (stmtSubDronesForHatcheries dp
    (stmtAddHatcheries dp (stmtAddZerglings hp (stmtAddOverlords hp
      (stmtAddDrones hp σ0))))))
  if σ.1.minerals_per_second = 0 then none
  else
    let true_mineral_needed := minerals_needed - carry
    let wait0 := ceilDiv true_mineral_needed σ.1.minerals_per_second
    let total_minerals := σ.1.minerals_per_second * wait0
    let wait_time := wait0 + (if 0 < hp.len then 1 else 0)
    let new_carry := total_minerals - true_mineral_needed +
      (σ.1.minerals_per_second - dp.len * 8)
    some ((wait_time, new_carry, σ.2), σ.1)

/-- One expansion step of the search: some production pair offered by
`productions(drone_productions(state), hatchery_productions(state))` is
applied by `next_state` (the successor state does not depend on the carry). -/
def step (s s' : State) : Prop :=
  ∃ dp hp, (dp, hp) ∈ productions (drone_productions s) (hatchery_productions s) ∧
    s' = applyChoice s hp dp

/-- States reachable from the starting state by generated production choices. -/
def Reachable (s : State) : Prop :=
  Relation.ReflTransGen step startState s

/-- The inductive invariant: attribute bounds plus the binding constraint
`units ≤ food_cap` that keeps `max_units_producible` non-negative. -/
def Inv (s : State) : Prop :=
  1 ≤ s.hatcheries ∧ s.hatcheries ≤ MAX_HATCHERIES ∧
  1 ≤ s.drones ∧ s.drones ≤ MAX_DRONES ∧
  0 ≤ s.zerglings ∧
  1 ≤ s.overlords ∧ s.overlords ≤ MAX_OVERLORDS ∧
  s.units ≤ s.food_cap

/-! ### Membership characterisations of the generators -/

theorem mem_intRange {x n : Int} : x ∈ intRange n ↔ 0 ≤ x ∧ x < n := by
  unfold intRange
  rw [List.mem_map]
  constructor
  · rintro ⟨i, hi, rfl⟩
    rw [List.mem_range] at hi
    omega
  · intro h
    refine ⟨x.toNat, ?_, by omega⟩
    rw [List.mem_range]
    omega

theorem nodup_intRange (n : Int) : (intRange n).Nodup := by
  unfold intRange
  exact (List.nodup_range _).map (fun a b h => by exact_mod_cast h)

theorem mem_hatchery_productions {s : State} {p : HatcheryProduction} :
    p ∈ hatchery_productions s ↔
      0 ≤ p.drones ∧ p.drones ≤ s.max_drones_producible ∧
      0 ≤ p.overlords ∧ p.overlords ≤ s.max_overlords_producible ∧
      0 ≤ p.zerglings ∧ p.zerglings ≤ s.max_zerglings_producible ∧
      p.drones + p.zerglings ≤ s.max_units_producible := by
  obtain ⟨d, o, z⟩ := p
  unfold hatchery_productions
  rw [List.mem_map]
  constructor
  · rintro ⟨t, ht, heq⟩
    obtain ⟨a, b, c⟩ := t
    rw [List.mem_filter, List.mem_product] at ht
    obtain ⟨⟨ha, hbc⟩, hsum⟩ := ht
    rw [List.mem_product] at hbc
    obtain ⟨hb, hc⟩ := hbc
    rw [mem_intRange] at ha hb hc
    rw [decide_eq_true_eq] at hsum
    cases heq
    dsimp only at *
    refine ⟨ha.1, by omega, hb.1, by omega, hc.1, by omega, hsum⟩
  · rintro ⟨hd0, hd1, ho0, ho1, hz0, hz1, hsum⟩
    dsimp only at *
    refine ⟨(d, o, z), ?_, rfl⟩
    rw [List.mem_filter, List.mem_product, List.mem_product]
    rw [mem_intRange, mem_intRange, mem_intRange, decide_eq_true_eq]
    exact ⟨⟨⟨hd0, by omega⟩, ⟨ho0, by omega⟩, ⟨hz0, by omega⟩⟩, hsum⟩

theorem nodup_hatchery_productions (s : State) : (hatchery_productions s).Nodup := by
  unfold hatchery_productions
  refine List.Nodup.map ?_ (List.Nodup.filter _ ?_)
  · rintro ⟨a, b, c⟩ ⟨a', b', c'⟩ h
    simp only [HatcheryProduction.mk.injEq] at h
    simp [Prod.ext_iff, h.1, h.2.1, h.2.2]
  · exact (nodup_intRange _).product ((nodup_intRange _).product (nodup_intRange _))

theorem mem_drone_productions {s : State} {p : DroneProduction} :
    p ∈ drone_productions s ↔
      0 ≤ p.hatcheries ∧ p.hatcheries ≤ s.max_hatcheries_producible ∧
      (p.spawning_pool = true → s.has_spawning_pool = false) ∧
      p.hatcheries + (if p.spawning_pool then 1 else 0) ≤ s.max_buildings_producible := by
  obtain ⟨h, b⟩ := p
  unfold drone_productions
  rw [List.mem_map]
  constructor
  · rintro ⟨t, ht, heq⟩
    obtain ⟨a, c⟩ := t
    rw [List.mem_filter, List.mem_product] at ht
    obtain ⟨⟨ha, hc⟩, hsum⟩ := ht
    rw [mem_intRange] at ha
    rw [decide_eq_true_eq] at hsum
    cases heq
    dsimp only at *
    refine ⟨ha.1, by omega, ?_, hsum⟩
    intro hb
    subst hb
    cases hpool : s.has_spawning_pool
    · rfl
    · rw [hpool] at hc
      simp at hc
  · rintro ⟨h0, h1, hpool, hsum⟩
    dsimp only at *
    refine ⟨(h, b), ?_, rfl⟩
    rw [List.mem_filter, List.mem_product, mem_intRange, decide_eq_true_eq]
    refine ⟨⟨⟨h0, by omega⟩, ?_⟩, hsum⟩
    cases hsp : s.has_spawning_pool
    · cases b <;> simp
    · have hb : b = false := by
        cases hbb : b
        · rfl
        · exact absurd (hpool hbb) (by simp [hsp])
      simp [hb]

theorem mem_productions {dps : List DroneProduction} {hps : List HatcheryProduction}
    {dp : DroneProduction} {hp : HatcheryProduction} :
    (dp, hp) ∈ productions dps hps ↔
      dp ∈ dps ∧ hp ∈ hps ∧
        (0 < dp.hatcheries + (if dp.spawning_pool then 1 else 0) ∨
         0 < hp.drones + hp.overlords + hp.zerglings) := by
  unfold productions
  rw [List.mem_filter, List.mem_product, decide_eq_true_eq]
  tauto

/-! ### Reachability and the state invariant -/

theorem inv_startState : Inv startState := by
  unfold Inv startState State.units State.food_cap MAX_HATCHERIES MAX_DRONES MAX_OVERLORDS
  norm_num

theorem step_preserves_inv {s s' : State} (hinv : Inv s) (hstep : step s s') :
    Inv s' := by
  obtain ⟨dp, hp, hmem, rfl⟩ := hstep
  rw [mem_productions] at hmem
  obtain ⟨hdp, hhp, -⟩ := hmem
  rw [mem_drone_productions] at hdp
  rw [mem_hatchery_productions] at hhp
  obtain ⟨hd0, hd1, ho0, ho1, hz0, hz1, hsum⟩ := hhp
  obtain ⟨hh0, hh1, hpoolex, hbsum⟩ := hdp
  simp only [State.max_drones_producible, State.max_overlords_producible,
    State.max_zerglings_producible, State.max_hatcheries_producible,
    State.max_units_producible, State.max_buildings_producible] at hd1 ho1 hz1 hh1 hsum hbsum
  rw [le_min_iff, le_min_iff] at hd1
  rw [le_min_iff] at ho1 hh1 hsum
  obtain ⟨hinv1, hinv2, hinv3, hinv4, hinv5, hinv6, hinv7, hinv8⟩ := hinv
  unfold Inv applyChoice State.units State.food_cap at *
  unfold MAX_HATCHERIES MAX_DRONES MAX_OVERLORDS at *
  dsimp only at *
  cases hsp : s.has_spawning_pool <;>
    cases hdpp : dp.spawning_pool <;>
      simp only [hsp, hdpp, if_true, if_false, Bool.false_or, Bool.true_or,
        Bool.or_false, Bool.or_true, not_false_iff, not_true, true_and, false_and,
        and_true, and_false, if_neg, Bool.false_eq_true, Bool.true_eq_false] at * <;>
    omega

/-- Every reachable state satisfies the invariant. -/
theorem reachable_inv {s : State} (h : Reachable s) : Inv s := by
  induction h with
  | refl => exact inv_startState
  | tail _ hstep ih => exact step_preserves_inv ih hstep

theorem ceilDiv_nonneg {a b : Int} (ha : 0 ≤ a) (hb : 0 < b) : 0 ≤ ceilDiv a b := by
  unfold ceilDiv
  rw [if_pos hb]
  have h2 : (-a).ediv b ≤ 0 := by
    have h3 := Int.ediv_le_ediv hb (by omega : -a ≤ 0)
    simpa using h3
  omega

/-! ### The claims -/

/-- C1, counterexample: from the starting state (income rate 40 > 0), with the
non-negative carry-over surplus 500 and the generator-offered choice
"build one hatchery" (cost 450), `next_state` returns the *negative* time
delta `-1`: `ceil((450 - 500) / 40) = -1` and no facility-use delay is added
because the hatchery production is empty.  So it is not true that every edge
weight fed to the search is non-negative. -/
theorem c1_wait_counterexample :
    ((⟨1, false⟩ : DroneProduction), (⟨0, 0, 0⟩ : HatcheryProduction)) ∈
        productions (drone_productions startState) (hatchery_productions startState) ∧
      0 < startState.minerals_per_second ∧ (0 : Int) ≤ 500 ∧
      next_state startState ⟨0, 0, 0⟩ ⟨1, false⟩ 500 =
        some (-1, 42, ⟨2, 4, 0, 1, false⟩) ∧ (-1 : Int) < 0 := by
  decide

/-- C1, amended: for every state with positive income rate, every carry-over
surplus that is non-negative *and does not exceed the mineral cost of the
chosen production pair*, and every production choice offered by the
generator for that state, the time delta returned by `next_state` is ≥ 0.
(The original claim, quantified over all non-negative carries, is refuted by
`c1_wait_counterexample`: a carry exceeding the cost makes the ceiling of a
negative quotient negative.) -/
theorem c1_amended_wait_nonneg (s : State) (hp : HatcheryProduction)
    (dp : DroneProduction) (carry : Int)
    (hpos : 0 < s.minerals_per_second) (hc0 : 0 ≤ carry)
    (hmem : (dp, hp) ∈ productions (drone_productions s) (hatchery_productions s))
    (hle : carry ≤ hp.minerals_needed + dp.minerals_needed s) :
    ∀ r : Int × Int × State, next_state s hp dp carry = some r → 0 ≤ r.1 := by
  intro r hns
  unfold next_state at hns
  rw [if_neg (by omega)] at hns
  obtain rfl := (Option.some.inj hns).symm
  dsimp only
  have h1 : 0 ≤ ceilDiv (hp.minerals_needed + dp.minerals_needed s - carry)
      s.minerals_per_second := ceilDiv_nonneg (by omega) hpos
  split <;> omega

/-- Witness for C1 (amended) at the starting state with carry 0 and the
choice "build one drone": the returned time delta is `3 ≥ 0`. -/
theorem c1_amended_wait_nonneg_witness :
    0 ≤ ((3 : Int), (70 : Int), (⟨1, 6, 0, 1, false⟩ : State)).1 :=
  c1_amended_wait_nonneg startState ⟨1, 0, 0⟩ ⟨0, false⟩ 0 (by decide) (by decide)
    (by decide) (by decide) (3, 70, ⟨1, 6, 0, 1, false⟩) (by decide)

/-- C2, counterexample: at the starting state with carry 0 and the choice
"build one drone" (cost 50), `incomeAccrued - netCostAfterCarry` is
`40 * ceil(50/40) - 50 = 30`, but `next_state` returns the carry 70: the code
adds the further term `state.minerals_per_second - 8 * len(drone_prod)`
(here `40`).  So the returned carry does *not* equal
`incomeAccrued - netCostAfterCarry`. -/
theorem c2_carry_counterexample :
    next_state startState ⟨1, 0, 0⟩ ⟨0, false⟩ 0 =
        some (3, 70, ⟨1, 6, 0, 1, false⟩) ∧
      startState.minerals_per_second *
          ceilDiv (HatcheryProduction.minerals_needed ⟨1, 0, 0⟩ +
              DroneProduction.minerals_needed ⟨0, false⟩ startState - 0)
            startState.minerals_per_second -
          (HatcheryProduction.minerals_needed ⟨1, 0, 0⟩ +
            DroneProduction.minerals_needed ⟨0, false⟩ startState - 0) = 30 ∧
      (70 : Int) ≠ 30 := by
  decide

/-- C2, amended: the carry returned by `next_state` equals
`incomeAccrued - netCostAfterCarry` *plus the extra term*
`state.incomeRate - 8 * (facilitiesRequested + techFacilityRequested)`,
where `incomeAccrued = state.incomeRate * roundsOfIncomeNeeded` and
`netCostAfterCarry = cost - carry`.  (The original claim, which admits no
other term, is refuted by `c2_carry_counterexample`.) -/
theorem c2_amended_carry_formula (s : State) (hp : HatcheryProduction)
    (dp : DroneProduction) (carry : Int) (r : Int × Int × State)
    (h : next_state s hp dp carry = some r) :
    r.2.1 =
      s.minerals_per_second *
          ceilDiv (hp.minerals_needed + dp.minerals_needed s - carry)
            s.minerals_per_second -
        (hp.minerals_needed + dp.minerals_needed s - carry) +
        (s.minerals_per_second - dp.len * 8) := by
  unfold next_state at h
  by_cases h0 : s.minerals_per_second = 0
  · rw [if_pos h0] at h
    exact absurd h (by simp)
  · rw [if_neg h0] at h
    obtain rfl := (Option.some.inj h).symm
    rfl

/-- Witness for C2 (amended) at the starting state with carry 0 and the
choice "build one drone". -/
theorem c2_amended_carry_formula_witness :
    ((3 : Int), (70 : Int), (⟨1, 6, 0, 1, false⟩ : State)).2.1 =
      startState.minerals_per_second *
          ceilDiv (HatcheryProduction.minerals_needed ⟨1, 0, 0⟩ +
              DroneProduction.minerals_needed ⟨0, false⟩ startState - 0)
            startState.minerals_per_second -
        (HatcheryProduction.minerals_needed ⟨1, 0, 0⟩ +
          DroneProduction.minerals_needed ⟨0, false⟩ startState - 0) +
        (startState.minerals_per_second - DroneProduction.len ⟨0, false⟩ * 8) :=
  c2_amended_carry_formula startState ⟨1, 0, 0⟩ ⟨0, false⟩ 0
    (3, 70, ⟨1, 6, 0, 1, false⟩) (by decide)

/-- C4: `hatchery_productions` returns exactly the triples `(w, s, m)` with
`0 ≤ w ≤ max_drones_producible`, `0 ≤ s ≤ max_overlords_producible`,
`0 ≤ m ≤ max_zerglings_producible` and `w + m ≤ max_units_producible` —
no omissions (right-to-left), no spurious triples (left-to-right) and no
duplicates; determinism is inherent, the enumeration being a pure function
of the state. -/
theorem c4_hatchery_enumeration_exact (s : State) :
    (∀ p : HatcheryProduction,
      p ∈ hatchery_productions s ↔
        0 ≤ p.drones ∧ p.drones ≤ s.max_drones_producible ∧
        0 ≤ p.overlords ∧ p.overlords ≤ s.max_overlords_producible ∧
        0 ≤ p.zerglings ∧ p.zerglings ≤ s.max_zerglings_producible ∧
        p.drones + p.zerglings ≤ s.max_units_producible) ∧
    (hatchery_productions s).Nodup :=
  ⟨fun _ => mem_hatchery_productions, nodup_hatchery_productions s⟩

/-- C5: the combined enumeration `productions` never yields the all-zero
pair, and applying any offered pair yields a state different from the input
(no self-loop edges). -/
theorem c5_no_noop_no_selfloop (s : State) (dp : DroneProduction)
    (hp : HatcheryProduction)
    (hmem : (dp, hp) ∈ productions (drone_productions s) (hatchery_productions s)) :
    ¬(dp.hatcheries = 0 ∧ dp.spawning_pool = false ∧
        hp.drones = 0 ∧ hp.overlords = 0 ∧ hp.zerglings = 0) ∧
      applyChoice s hp dp ≠ s := by
  rw [mem_productions] at hmem
  obtain ⟨hdp, hhp, hnz⟩ := hmem
  rw [mem_drone_productions] at hdp
  rw [mem_hatchery_productions] at hhp
  constructor
  · rintro ⟨e1, e2, e3, e4, e5⟩
    rw [e1, e2, e3, e4, e5] at hnz
    simp at hnz
  · intro heq
    have h1 := congrArg State.hatcheries heq
    have h2 := congrArg State.drones heq
    have h3 := congrArg State.zerglings heq
    have h4 := congrArg State.overlords heq
    have h5 := congrArg State.has_spawning_pool heq
    simp only [applyChoice] at h1 h2 h3 h4 h5
    have hdh : dp.hatcheries = 0 := by omega
    cases hdps : dp.spawning_pool
    · rw [if_neg (by simp [hdps])] at h2
      have hz : hp.zerglings = 0 := by omega
      have ho : hp.overlords = 0 := by omega
      have hd : hp.drones = 0 := by omega
      rw [hdh, hdps, hd, ho, hz] at hnz
      simp at hnz
    · have hsp : s.has_spawning_pool = false := hdp.2.2.1 hdps
      rw [hsp, hdps] at h5
      simp at h5

/-- Witness for C5 at the starting state with the offered pair
"build one hatchery, no hatchery output". -/
theorem c5_no_noop_no_selfloop_witness :
    ¬((⟨1, false⟩ : DroneProduction).hatcheries = 0 ∧
        (⟨1, false⟩ : DroneProduction).spawning_pool = false ∧
        (⟨0, 0, 0⟩ : HatcheryProduction).drones = 0 ∧
        (⟨0, 0, 0⟩ : HatcheryProduction).overlords = 0 ∧
        (⟨0, 0, 0⟩ : HatcheryProduction).zerglings = 0) ∧
      applyChoice startState ⟨0, 0, 0⟩ ⟨1, false⟩ ≠ startState :=
  c5_no_noop_no_selfloop startState ⟨1, false⟩ ⟨0, 0, 0⟩ (by decide)

/-- C6: every state reachable from the starting state by generated
production choices has non-negative attributes, respects the three global
caps, and has `0 ≤ max_units_producible ≤ facilityCount`. -/
theorem c6_reachable_bounds (s : State) (h : Reachable s) :
    0 ≤ s.hatcheries ∧ 0 ≤ s.drones ∧ 0 ≤ s.zerglings ∧ 0 ≤ s.overlords ∧
      s.drones ≤ MAX_DRONES ∧ s.overlords ≤ MAX_OVERLORDS ∧
      s.hatcheries ≤ MAX_HATCHERIES ∧
      0 ≤ s.max_units_producible ∧ s.max_units_producible ≤ s.hatcheries := by
  have hi := reachable_inv h
  obtain ⟨h1, h2, h3, h4, h5, h6, h7, h8⟩ := hi
  refine ⟨by omega, by omega, h5, by omega, h4, h7, h2, ?_, min_le_left _ _⟩
  unfold State.max_units_producible
  rw [le_min_iff]
  unfold State.units State.food_cap at *
  constructor <;> omega

/-- Witness for C6 at the starting state (reachable by the empty path). -/
theorem c6_reachable_bounds_witness :
    0 ≤ startState.hatcheries ∧ 0 ≤ startState.drones ∧
      0 ≤ startState.zerglings ∧ 0 ≤ startState.overlords ∧
      startState.drones ≤ MAX_DRONES ∧ startState.overlords ≤ MAX_OVERLORDS ∧
      startState.hatcheries ≤ MAX_HATCHERIES ∧
      0 ≤ startState.max_units_producible ∧
      startState.max_units_producible ≤ startState.hatcheries :=
  c6_reachable_bounds startState Relation.ReflTransGen.refl

/-- C7: for every reachable state and every offered production choice the
error conditions of `next_state` are unreachable — the income rate divided
by is positive (so the function returns a value rather than raising), and
no resulting count is negative (the drone count even stays positive, since
the generator keeps `facilities + techFacility ≤ workerCount - 1`). -/
theorem c7_error_conditions_unreachable (s : State) (dp : DroneProduction)
    (hp : HatcheryProduction) (carry : Int) (hr : Reachable s)
    (hmem : (dp, hp) ∈ productions (drone_productions s) (hatchery_productions s)) :
    0 < s.minerals_per_second ∧
      (next_state s hp dp carry).isSome = true ∧
      0 < (applyChoice s hp dp).drones ∧
      0 ≤ (applyChoice s hp dp).hatcheries ∧
      0 ≤ (applyChoice s hp dp).zerglings ∧
      0 ≤ (applyChoice s hp dp).overlords := by
  have hi := reachable_inv hr
  have hi' : Inv (applyChoice s hp dp) :=
    step_preserves_inv hi ⟨dp, hp, hmem, rfl⟩
  obtain ⟨-, -, hd, -⟩ := hi
  have hpos : 0 < s.minerals_per_second := by
    unfold State.minerals_per_second
    omega
  obtain ⟨g1, -, g3, -, g5, g6, -⟩ := hi'
  refine ⟨hpos, ?_, by omega, by omega, g5, by omega⟩
  unfold next_state
  rw [if_neg (by omega)]
  rfl

/-- Witness for C7 at the starting state with the offered choice
"build one drone" and carry 0. -/
theorem c7_error_conditions_unreachable_witness :
    0 < startState.minerals_per_second ∧
      (next_state startState ⟨1, 0, 0⟩ ⟨0, false⟩ 0).isSome = true ∧
      0 < (applyChoice startState ⟨1, 0, 0⟩ ⟨0, false⟩).drones ∧
      0 ≤ (applyChoice startState ⟨1, 0, 0⟩ ⟨0, false⟩).hatcheries ∧
      0 ≤ (applyChoice startState ⟨1, 0, 0⟩ ⟨0, false⟩).zerglings ∧
      0 ≤ (applyChoice startState ⟨1, 0, 0⟩ ⟨0, false⟩).overlords :=
  c7_error_conditions_unreachable startState ⟨0, false⟩ ⟨1, 0, 0⟩ 0
    Relation.ReflTransGen.refl (by decide)

/-- C8: the tech-facility (spawning-pool) cost is idempotent — the worker
enumeration never offers `spawning_pool = true` when the state already has
the pool, the cost charges 200 exactly when the state lacks the pool and
the choice requests it, and in particular a state that has the pool is
never charged for it again. -/
theorem c8_tech_cost_idempotent (s : State) (dp : DroneProduction)
    (hmem : dp ∈ drone_productions s) :
    (s.has_spawning_pool = true → dp.spawning_pool = false) ∧
      dp.minerals_needed s = 450 * dp.hatcheries +
        (if s.has_spawning_pool = false ∧ dp.spawning_pool = true then 200 else 0) ∧
      (s.has_spawning_pool = true → dp.minerals_needed s = 450 * dp.hatcheries) := by
  rw [mem_drone_productions] at hmem
  have hex : s.has_spawning_pool = true → dp.spawning_pool = false := by
    intro hs
    cases hb : dp.spawning_pool
    · rfl
    · exact absurd (hmem.2.2.1 hb) (by simp [hs])
  have hformula : dp.minerals_needed s = 450 * dp.hatcheries +
      (if s.has_spawning_pool = false ∧ dp.spawning_pool = true then 200 else 0) := by
    unfold DroneProduction.minerals_needed
    simp only [Bool.not_eq_true]
  refine ⟨hex, hformula, fun hs => ?_⟩
  rw [hformula, hex hs]
  simp

/-- Witness for C8 at a state that already owns the spawning pool, with the
offered choice "build one hatchery". -/
theorem c8_tech_cost_idempotent_witness :
    ((⟨1, 5, 0, 1, true⟩ : State).has_spawning_pool = true →
      (⟨1, false⟩ : DroneProduction).spawning_pool = false) ∧
      DroneProduction.minerals_needed ⟨1, false⟩ ⟨1, 5, 0, 1, true⟩ =
        450 * (⟨1, false⟩ : DroneProduction).hatcheries +
        (if (⟨1, 5, 0, 1, true⟩ : State).has_spawning_pool = false ∧
            (⟨1, false⟩ : DroneProduction).spawning_pool = true then 200 else 0) ∧
      ((⟨1, 5, 0, 1, true⟩ : State).has_spawning_pool = true →
        DroneProduction.minerals_needed ⟨1, false⟩ ⟨1, 5, 0, 1, true⟩ =
          450 * (⟨1, false⟩ : DroneProduction).hatcheries) :=
  c8_tech_cost_idempotent ⟨1, 5, 0, 1, true⟩ ⟨1, false⟩ (by decide)

/-- C9, counterexample: for the two states below (which differ in drone
count, so their `evaluate` sums differ), `__lt__` returns a nonzero integer
in *both* directions; Python treats a nonzero return as true, so both
`a < b` and `b < a` hold and the comparison is not a valid strict
ordering, contrary to the claim. -/
theorem c9_lt_counterexample :
    State.lt ⟨1, 5, 0, 1, false⟩ ⟨1, 6, 0, 1, false⟩ ≠ 0 ∧
      State.lt ⟨1, 6, 0, 1, false⟩ ⟨1, 5, 0, 1, false⟩ ≠ 0 := by
  decide

/-- C9, amended: equality holds iff all five attributes match, and equal
states have equal hashes; but the less-than comparison returns the
difference of the `evaluate()` sums, which is truthy (nonzero) in *both*
directions whenever the two sums differ — it is not a valid strict
ordering.  (The original claim's strict-ordering part is refuted by
`c9_lt_counterexample`.) -/
theorem c9_amended_eq_hash_lt (a b : State) :
    (State.eq a b = true ↔
      (a.hatcheries = b.hatcheries ∧ a.drones = b.drones ∧
        a.overlords = b.overlords ∧ a.zerglings = b.zerglings ∧
        a.has_spawning_pool = b.has_spawning_pool)) ∧
      (State.eq a b = true → State.hash_value a = State.hash_value b) ∧
      (State.lt a b = a.evaluate - b.evaluate) ∧
      (a.evaluate ≠ b.evaluate → State.lt a b ≠ 0 ∧ State.lt b a ≠ 0) := by
  refine ⟨?_, ?_, rfl, fun h => ?_⟩
  · unfold State.eq
    simp only [Bool.and_eq_true, beq_iff_eq]
    tauto
  · intro h
    have hab : a = b := by
      obtain ⟨a1, a2, a3, a4, a5⟩ := a
      obtain ⟨b1, b2, b3, b4, b5⟩ := b
      simp only [State.eq, Bool.and_eq_true, beq_iff_eq] at h
      simp_all
    rw [hab]
  · unfold State.lt
    constructor <;> omega

/-- Witness for C9 (amended) at two states with different `evaluate` sums. -/
theorem c9_amended_eq_hash_lt_witness :
    State.lt ⟨2, 7, 1, 3, true⟩ ⟨1, 5, 0, 1, false⟩ ≠ 0 ∧
      State.lt ⟨1, 5, 0, 1, false⟩ ⟨2, 7, 1, 3, true⟩ ≠ 0 :=
  (c9_amended_eq_hash_lt ⟨2, 7, 1, 3, true⟩ ⟨1, 5, 0, 1, false⟩).2.2.2 (by decide)

/-- C10: `next_state` does not mutate its input.  Executed statement by
statement on the explicit two-object store, the function leaves the object
`state` with all five attributes unchanged (the final store returns it
equal to the input `s`), every write having gone to the copy, and the
`State` it returns is that copy — exactly the value the net-effect model
`next_state` computes. -/
theorem c10_next_state_no_mutation (s : State) (hp : HatcheryProduction)
    (dp : DroneProduction) (carry : Int) :
    next_state_exec s hp dp carry =
      Option.map (fun r => (r, s)) (next_state s hp dp carry) := by
  by_cases h0 : s.minerals_per_second = 0 <;>
    simp [next_state_exec, next_state, applyChoice, stmtAddDrones,
      stmtAddOverlords, stmtAddZerglings, stmtAddHatcheries,
      stmtSubDronesForHatcheries, stmtSubDroneForPool, stmtSetPool, h0]

end StarcraftZero
